import Mathlib

/-!
Verification development for the weather backend (`weather_backend.py`,
frontend `cuaca.py`).

The backend is a pipeline: input validation -> HTTP fetch -> JSON parsing
into domain records -> temporal aggregation into daily buckets.  This file
gives a shallow embedding of that pipeline:

* JSON payloads are an inductive `Json` type (numbers as rationals: the
  payload numbers handled here, OpenWeather temperatures etc., are decimal
  literals and all arithmetic performed on them is exact);
* Python exceptions become an error type `PyErr`; fallible code returns
  `Except PyErr _`;
* `pandas.DataFrame`s become lists of typed rows (`ForecastRow`,
  `DailyRow`), in provider order;
* `datetime` values become rational seconds since the Unix epoch; a
  calendar date becomes its day number, `Int.floor (t / 86400)` (Unix time
  has no leap seconds, so the `datetime.date()` boundary sits exactly at
  multiples of 86400 seconds).

Python-semantics helpers (`dictGet`, `listGet`, `pyGet`, `pyFloat`,
`pyInt`, `pyStrip`, `pyCapitalizeStr`, ...) model the precise behaviour of
the corresponding CPython operations on the value shapes that can occur,
including which exception class each failure raises, since the backend's
`try/except` clauses catch only specific classes.
-/

namespace WeatherBackend

/-- JSON values, as produced by `requests.Response.json()`.  Object fields
are an association list; lookups take the first binding (the concrete
payloads in this development never repeat a key). -/
inductive Json where
  | null : Json
  | bool (b : Bool) : Json
  | num (q : ℚ) : Json
  | str (s : String) : Json
  | arr (xs : List Json) : Json
  | obj (fields : List (String × Json)) : Json

/-- The exception taxonomy of `weather_backend.py`:  the base
`WeatherException` (spec kind "Processing") and its three subclasses. -/
inductive WKind where
  | base : WKind
  | cityNotFound : WKind
  | apiRequest : WKind
  | invalidInput : WKind
deriving DecidableEq, Repr

/-- Python exceptions that the modelled code can raise.  `weatherError`
covers `WeatherException` and its subclasses; the remaining constructors
are builtin exception classes.  `unmodeled` marks a code path outside this
model (a non-string icon value flowing into a forecast row); no theorem
below quantifies over inputs that reach it. -/
inductive PyErr where
  | keyError (k : String) : PyErr
  | indexError : PyErr
  | typeError (msg : String) : PyErr
  | valueError (msg : String) : PyErr
  | attributeError (msg : String) : PyErr
  | weatherError (kind : WKind) (msg : String) : PyErr
  | unmodeled (msg : String) : PyErr
deriving DecidableEq, Repr

/-- Python `str(e)` for the exceptions above.  `KeyError` reprs its key quoted;
the other builtin messages are approximations of CPython's texts (no claim
depends on them). -/
def pyErrStr : PyErr → String
  | .keyError k => "\x27" ++ k ++ "\x27"
  | .indexError => "list index out of range"
  | .typeError m => m
  | .valueError m => m
  | .attributeError m => m
  | .weatherError _ m => m
  | .unmodeled m => m

/-- Whether a daily/forecast `except (KeyError, IndexError, TypeError)`
clause catches the exception. -/
def isCaught : PyErr → Bool
  | .keyError _ => true
  | .indexError => true
  | .typeError _ => true
  | _ => false

/-- Is the result a `WeatherException` (of any kind)? -/
def isWeatherError {α : Type} : Except PyErr α → Bool
  | .error (.weatherError _ _) => true
  | _ => false

/-- Semantics of `except (KeyError, IndexError, TypeError) as e: raise
WeatherException(ctx + ": " + str(e))` around a computation. -/
def wrapCaught {α : Type} (ctx : String) : Except PyErr α → Except PyErr α
  | .ok a => .ok a
  | .error e =>
    if isCaught e then .error (.weatherError .base (ctx ++ ": " ++ pyErrStr e))
    else .error e

/-! ### Python string and number helpers -/

/-- ASCII whitespace stripped by `str.strip()` (the non-ASCII Unicode
whitespace Python also strips never occurs in the claims). -/
def isPyWs (c : Char) : Bool :=
  c = ' ' ∨ c = '\t' ∨ c = '\n' ∨ c = '\x0d' ∨ c = '\x0b' ∨ c = '\x0c'

/-- Python `str.strip()`. -/
def pyStrip (s : String) : String :=
  String.mk (((s.data.dropWhile isPyWs).reverse.dropWhile isPyWs).reverse)

/-- Python `str.capitalize()`: first character uppercased, the rest
lowercased (ASCII case mapping). -/
def pyCapitalizeStr (s : String) : String :=
  match s.data with
  | [] => ""
  | c :: rest => String.mk (c.toUpper :: rest.map Char.toLower)

def digitsToNat (ds : List Char) : ℕ :=
  ds.foldl (fun a c => 10 * a + (c.toNat - 48)) 0

def spanDigits (cs : List Char) : List Char × List Char :=
  (cs.takeWhile Char.isDigit, cs.dropWhile Char.isDigit)

/-- Leading `+`/`-` sign; returns (isNegative, rest). -/
def parseSign : List Char → Bool × List Char
  | '-' :: rest => (true, rest)
  | '+' :: rest => (false, rest)
  | cs => (false, cs)

/-- Exponent suffix `e±ddd` (or nothing); `none` on trailing garbage. -/
def parseExpPart : List Char → Option ℤ
  | [] => some 0
  | c :: rest =>
    if c = 'e' ∨ c = 'E' then
      let (eneg, rest2) := parseSign rest
      let (eds, rest3) := spanDigits rest2
      if eds.isEmpty ∨ ¬ rest3.isEmpty then none
      else some (if eneg then -(digitsToNat eds : ℤ) else (digitsToNat eds : ℤ))
    else none

/-- Python `float(s)` on decimal literals: optional sign, digits with an
optional fraction part, optional exponent.  (`inf`/`nan`, underscores and
surrounding whitespace are not modelled; they do not occur in the claims.)
Returns `none` where CPython raises `ValueError`. -/
def parseFloatQ (s : String) : Option ℚ :=
  let (neg, cs1) := parseSign s.data
  let (ip, cs2) := spanDigits cs1
  let (fp, rest) :=
    match cs2 with
    | '.' :: r => spanDigits r
    | _ => ([], cs2)
  if ip.isEmpty ∧ fp.isEmpty then none
  else
    match parseExpPart rest with
    | none => none
    | some e =>
      let mant : ℚ := (digitsToNat (ip ++ fp) : ℚ) / ((10 : ℚ) ^ fp.length)
      let scaled : ℚ :=
        if 0 ≤ e then mant * (10 : ℚ) ^ e.toNat else mant / (10 : ℚ) ^ (-e).toNat
      some (if neg then -scaled else scaled)

/-- Python `int(s)`: optional sign plus decimal digits only. -/
def parseIntStr (s : String) : Option ℤ :=
  let (neg, cs1) := parseSign s.data
  let (ds, rest) := spanDigits cs1
  if ds.isEmpty ∨ ¬ rest.isEmpty then none
  else some (if neg then -(digitsToNat ds : ℤ) else (digitsToNat ds : ℤ))

/-- Python `int(x)` truncation toward zero of a real value. -/
def qTrunc (q : ℚ) : ℤ := Int.tdiv q.num (q.den : ℤ)

/-- Python `float(x)` applied to a JSON value. -/
def pyFloat : Json → Except PyErr ℚ
  | .num q => .ok q
  | .bool b => .ok (if b then 1 else 0)
  | .str s =>
    match parseFloatQ s with
    | some q => .ok q
    | none => .error (.valueError ("could not convert string to float: \x27" ++ s ++ "\x27"))
  | .null => .error (.typeError "float() argument must be a string or a real number, not NoneType")
  | .arr _ => .error (.typeError "float() argument must be a string or a real number, not list")
  | .obj _ => .error (.typeError "float() argument must be a string or a real number, not dict")

/-- Python `int(x)` applied to a JSON value. -/
def pyInt : Json → Except PyErr ℤ
  | .num q => .ok (qTrunc q)
  | .bool b => .ok (if b then 1 else 0)
  | .str s =>
    match parseIntStr s with
    | some n => .ok n
    | none => .error (.valueError ("invalid literal for int() with base 10: \x27" ++ s ++ "\x27"))
  | .null => .error (.typeError "int() argument must be a string or a number, not NoneType")
  | .arr _ => .error (.typeError "int() argument must be a string or a number, not list")
  | .obj _ => .error (.typeError "int() argument must be a string or a number, not dict")

/-! ### Python subscripting / attribute access on JSON values -/

/-- Subscripting `x[k]` with a string key: dict lookup (`KeyError` when missing),
`TypeError` on non-dict values. -/
def dictGet : Json → String → Except PyErr Json
  | .obj fs, k =>
    match fs.lookup k with
    | some v => .ok v
    | none => .error (.keyError k)
  | .null, _ => .error (.typeError "\x27NoneType\x27 object is not subscriptable")
  | .bool _, _ => .error (.typeError "\x27bool\x27 object is not subscriptable")
  | .num _, _ => .error (.typeError "\x27float\x27 object is not subscriptable")
  | .str _, _ => .error (.typeError "string indices must be integers")
  | .arr _, _ => .error (.typeError "list indices must be integers or slices, not str")

/-- Positional lookup in a sequence (`seq[i]`), `none` out of range. -/
def nth {α : Type} : List α → ℕ → Option α
  | [], _ => none
  | x :: _, 0 => some x
  | _ :: xs, i + 1 => nth xs i

/-- Subscripting `x[i]` with an integer index: list/str indexing (`IndexError` out of
range, a one-character string for strings), dicts raise `KeyError` (no
such key), other values `TypeError`. -/
def listGet : Json → ℕ → Except PyErr Json
  | .arr xs, i =>
    match nth xs i with
    | some v => .ok v
    | none => .error .indexError
  | .str s, i =>
    match nth s.data i with
    | some c => .ok (.str (String.mk [c]))
    | none => .error .indexError
  | .obj _, i => .error (.keyError (toString i))
  | .null, _ => .error (.typeError "\x27NoneType\x27 object is not subscriptable")
  | .bool _, _ => .error (.typeError "\x27bool\x27 object is not subscriptable")
  | .num _, _ => .error (.typeError "\x27float\x27 object is not subscriptable")

/-- Python `x.get(k, dflt)`: only dicts have `.get`; anything else raises
`AttributeError`. -/
def pyGet : Json → String → Json → Except PyErr Json
  | .obj fs, k, dflt => .ok ((fs.lookup k).getD dflt)
  | .null, _, _ => .error (.attributeError "\x27NoneType\x27 object has no attribute \x27get\x27")
  | .bool _, _, _ => .error (.attributeError "\x27bool\x27 object has no attribute \x27get\x27")
  | .num _, _, _ => .error (.attributeError "\x27float\x27 object has no attribute \x27get\x27")
  | .str _, _, _ => .error (.attributeError "\x27str\x27 object has no attribute \x27get\x27")
  | .arr _, _, _ => .error (.attributeError "\x27list\x27 object has no attribute \x27get\x27")

/-- Python `x.capitalize()`: only defined on strings. -/
def pyCapitalize : Json → Except PyErr String
  | .str s => .ok (pyCapitalizeStr s)
  | _ => .error (.attributeError "object has no attribute \x27capitalize\x27")

/-- Iteration `for entry in x`: lists yield elements, dicts their keys, strings
their characters; other values raise `TypeError`. -/
def iterElems : Json → Except PyErr (List Json)
  | .arr xs => .ok xs
  | .obj fs => .ok (fs.map (fun p => Json.str p.fst))
  | .str s => .ok (s.data.map (fun c => Json.str (String.mk [c])))
  | .null => .error (.typeError "\x27NoneType\x27 object is not iterable")
  | .bool _ => .error (.typeError "\x27bool\x27 object is not iterable")
  | .num _ => .error (.typeError "\x27float\x27 object is not iterable")

/-- An argument that must be a real number (`datetime.utcfromtimestamp`,
`timedelta(seconds=...)`); Python `bool` is an `int` subtype and is
accepted. -/
def asNumber (ctx : String) : Json → Except PyErr ℚ
  | .num q => .ok q
  | .bool b => .ok (if b then 1 else 0)
  | _ => .error (.typeError ctx)

/-! ### Data model: `CurrentWeather` -/

/-- The `CurrentWeather` dataclass.  The `icon` field stores the raw JSON
value unconverted, exactly as the source assigns it. -/
structure CurrentWeather where
  city : String
  description : String
  icon : Json
  temperature : ℚ
  pressure : ℤ
  humidity : ℤ
  wind_speed : ℚ
  latitude : ℚ
  longitude : ℚ

/-- Body of `WeatherDataProcessor.parse_current_weather` (the code inside
its `try`), with the source's field evaluation order. -/
def parse_current_weather_body (raw : Json) (city_name : String) :
    Except PyErr CurrentWeather := do
  let wd ← dictGet raw "weather"
  let w0d ← listGet wd 0
  let descriptionJ ← dictGet w0d "description"
  let description ← pyCapitalize descriptionJ
  let wi ← dictGet raw "weather"
  let w0i ← listGet wi 0
  let icon ← dictGet w0i "icon"
  let mainT ← dictGet raw "main"
  let temperature ← pyFloat (← dictGet mainT "temp")
  let mainP ← dictGet raw "main"
  let pressure ← pyInt (← dictGet mainP "pressure")
  let mainH ← dictGet raw "main"
  let humidity ← pyInt (← dictGet mainH "humidity")
  let windSec ← pyGet raw "wind" (Json.obj [])
  let windV ← pyGet windSec "speed" (Json.num 0)
  let wind_speed ← pyFloat windV
  let coordLa ← dictGet raw "coord"
  let latitude ← pyFloat (← dictGet coordLa "lat")
  let coordLo ← dictGet raw "coord"
  let longitude ← pyFloat (← dictGet coordLo "lon")
  .ok ⟨city_name, description, icon, temperature, pressure, humidity,
       wind_speed, latitude, longitude⟩

/-- The method `WeatherDataProcessor.parse_current_weather`: the body wrapped in
`except (KeyError, IndexError, TypeError): raise WeatherException(...)`. -/
def parse_current_weather (raw : Json) (city_name : String) :
    Except PyErr CurrentWeather :=
  wrapCaught "Error parsing current weather" (parse_current_weather_body raw city_name)

/-! ### Forecast table (`build_forecast_dataframe`) -/

/-- One row of the forecast `DataFrame`.  Datetimes are rational seconds
since the Unix epoch; `date` is the local day number (see the header).
`icon` is restricted to strings (the provider's icon codes); a non-string
icon value reaches the `PyErr.unmodeled` branch of `asStrIcon`. -/
structure ForecastRow where
  dt : ℚ
  datetime : ℚ
  date : ℤ
  temp : ℚ
  humidity : ℤ
  wind : ℚ
  desc : String
  icon : String
deriving DecidableEq, Repr

/-- The method `WeatherDataProcessor.to_local_datetime`:
`datetime.utcfromtimestamp(dt_utc) + timedelta(seconds=tz_offset)`. -/
def to_local_datetime (dt_utc : ℚ) (tz_offset : ℚ) : ℚ :=
  dt_utc + tz_offset

/-- The call `dt_local.date()` as a day number: Unix time has no leap seconds, so
the calendar date of a datetime `t` is determined by `⌊t / 86400⌋`. -/
def dateOfDatetime (t : ℚ) : ℤ := ⌊t / 86400⌋

/-- The source stores `entry["weather"][0]["icon"]` in the row without
conversion; this model restricts rows to the provider's string icons. -/
def asStrIcon : Json → Except PyErr String
  | .str s => .ok s
  | _ => .error (.unmodeled "non-string icon value in forecast entry")

/-- The read `tz_offset = forecast_json.get("city", {}).get("timezone", 0)`. -/
def forecastTzJson (j : Json) : Except PyErr Json := do
  let cityj ← pyGet j "city" (Json.obj [])
  pyGet cityj "timezone" (Json.num 0)

/-- The read `forecast_json.get("list", [])` as the iterated entry sequence. -/
def forecastEntries (j : Json) : Except PyErr (List Json) := do
  iterElems (← pyGet j "list" (Json.arr []))

/-- The loop body building one row from one entry, in the source's
evaluation order (`dt`, local datetime, then the row-dict fields). -/
def buildRow (tzjson : Json) (entry : Json) : Except PyErr ForecastRow := do
  let dtj ← dictGet entry "dt"
  let dtv ← asNumber "an integer is required (got type str)" dtj
  let tz ← asNumber "unsupported type for timedelta seconds component" tzjson
  let dtLocal := to_local_datetime dtv tz
  let mainT ← dictGet entry "main"
  let tempv ← pyFloat (← dictGet mainT "temp")
  let mainH ← dictGet entry "main"
  let humv ← pyInt (← dictGet mainH "humidity")
  let windSec ← pyGet entry "wind" (Json.obj [])
  let windv ← pyFloat (← pyGet windSec "speed" (Json.num 0))
  let wd ← dictGet entry "weather"
  let w0d ← listGet wd 0
  let descv ← pyCapitalize (← dictGet w0d "description")
  let wi ← dictGet entry "weather"
  let w0i ← listGet wi 0
  let iconv ← asStrIcon (← dictGet w0i "icon")
  .ok ⟨dtv, dtLocal, dateOfDatetime dtLocal, tempv, humv, windv, descv, iconv⟩

/-- The loop `for entry in ...: rows.append(...)`, stopping at the first raised
exception, exactly like the Python loop. -/
def buildRows (tzjson : Json) : List Json → Except PyErr (List ForecastRow)
  | [] => .ok []
  | e :: es => do
    let r ← buildRow tzjson e
    let rs ← buildRows tzjson es
    .ok (r :: rs)

/-- Body of `build_forecast_dataframe` (the code inside its `try`). -/
def build_body (j : Json) : Except PyErr (List ForecastRow) := do
  let tzjson ← forecastTzJson j
  let entries ← forecastEntries j
  buildRows tzjson entries

/-- The method `WeatherDataProcessor.build_forecast_dataframe`: the body wrapped in
`except (KeyError, IndexError, TypeError): raise WeatherException(...)`. -/
def build_forecast_dataframe (j : Json) : Except PyErr (List ForecastRow) :=
  wrapCaught "Error building forecast dataframe" (build_body j)

/-! ### Daily aggregation (`aggregate_daily_forecast`) -/

/-- Lexicographic comparison of character lists by code point — the
comparison Python uses on `str` and hence the order in which pandas sorts
string values. -/
def pyStrLtL : List Char → List Char → Bool
  | [], [] => false
  | [], _ :: _ => true
  | _ :: _, [] => false
  | a :: as, b :: bs =>
    if a.toNat < b.toNat then true
    else if b.toNat < a.toNat then false
    else pyStrLtL as bs

/-- Python `a < b` on strings. -/
def pyStrLt (a b : String) : Bool := pyStrLtL a.data b.data

/-- Python `a <= b` on strings (total order, so `¬ (b < a)`). -/
def pyStrLe (a b : String) : Bool := !(pyStrLt b a)

/-- The smaller of two strings in Python's string order. -/
def strMin (a b : String) : String := if pyStrLe a b then a else b

/-- Number of occurrences of `v` in `xs` (`pandas` value count). -/
def countIn (xs : List String) (v : String) : ℕ :=
  (xs.filter (fun w => w == v)).length

/-- The largest occurrence count of any value of `xs`. -/
def maxCount (xs : List String) : ℕ :=
  (xs.map (fun v => countIn xs v)).foldr max 0

/-- The values of `xs` attaining the largest count (with multiplicity;
taking a minimum below makes the multiplicity irrelevant). -/
def modeCands (xs : List String) : List String :=
  xs.filter (fun v => countIn xs v == maxCount xs)

/-- The expression `x.mode().iloc[0]` on a non-empty string series: `Series.mode`
returns the most frequent values **in sorted order** (for strings:
lexicographic by code point, the same order as Lean's `String` order), so
`.iloc[0]` is the least such value.  On a non-empty series the mode is
never empty, so the source's `if not x.mode().empty else x.iloc[0]`
fallback is unreachable; `""` below is the unreachable empty-series
value. -/
def seriesMode (xs : List String) : String :=
  match modeCands xs with
  | [] => ""
  | c :: cs => cs.foldl strMin c

/-- Minimum of a column (`("temp", "min")`); `[]` is unreachable for the
non-empty groups produced by `groupby`. -/
def minQ : List ℚ → ℚ
  | [] => 0
  | x :: xs => xs.foldl min x

/-- Maximum of a column (`("temp", "max")`). -/
def maxQ : List ℚ → ℚ
  | [] => 0
  | x :: xs => xs.foldl max x

/-- Mean of a column (`("temp", "mean")` etc.). -/
def meanQ (l : List ℚ) : ℚ := l.sum / l.length

/-- Proleptic-Gregorian civil date `(y, m, d)` of a day number (days
since 1970-01-01); the standard era-based conversion, as performed by
`datetime.date`. -/
def civilFromDays (z0 : ℤ) : ℤ × ℤ × ℤ :=
  let z := z0 + 719468
  let era := Int.fdiv z 146097
  let doe := z - era * 146097
  let yoe := Int.fdiv (doe - Int.fdiv doe 1460 + Int.fdiv doe 36524 - Int.fdiv doe 146096) 365
  let y := yoe + era * 400
  let doy := doe - (365 * yoe + Int.fdiv yoe 4 - Int.fdiv yoe 100)
  let mp := Int.fdiv (5 * doy + 2) 153
  let d := doy - Int.fdiv (153 * mp + 2) 5 + 1
  let m := mp + (if mp < 10 then 3 else -9)
  (y + (if m ≤ 2 then 1 else 0), m, d)

/-- Zero-pad a numeral string to a width. -/
def padZero (w : ℕ) (s : String) : String :=
  if s.length < w then String.mk (List.replicate (w - s.length) '0') ++ s else s

/-- Python `str(date)` — ISO `YYYY-MM-DD` (the `astype(str)` column). -/
def dateStr (day : ℤ) : String :=
  let ymd := civilFromDays day
  padZero 4 (toString ymd.1) ++ "-" ++ padZero 2 (toString ymd.2.1) ++ "-" ++
    padZero 2 (toString ymd.2.2)

/-- One row of the daily summary `DataFrame`. -/
structure DailyRow where
  date : ℤ
  min_temp : ℚ
  max_temp : ℚ
  mean_temp : ℚ
  mean_hum : ℚ
  mean_wind : ℚ
  icon : String
  desc : String
  date_str : String
deriving DecidableEq, Repr

/-- The `df.groupby("date")` group keys: the distinct dates, sorted ascending
(`groupby` sorts keys by default). -/
def groupDates (df : List ForecastRow) : List ℤ :=
  ((df.map (fun r => r.date)).dedup).insertionSort (· ≤ ·)

/-- The rows of one date group, in original (provider) order, as
`groupby` presents them to each aggregation. -/
def dateGroup (df : List ForecastRow) (d : ℤ) : List ForecastRow :=
  df.filter (fun r => r.date == d)

/-- One merged daily row: the `agg` aggregates, the mode representatives
(the two `groupby` results share their keys, so the inner merge on
`date` pairs them 1-1 in key order), and the `date_str` column. -/
def mkDaily (d : ℤ) (g : List ForecastRow) : DailyRow :=
  ⟨d, minQ (g.map (fun r => r.temp)), maxQ (g.map (fun r => r.temp)),
   meanQ (g.map (fun r => r.temp)),
   meanQ (g.map (fun r => (r.humidity : ℚ))),
   meanQ (g.map (fun r => r.wind)),
   seriesMode (g.map (fun r => r.icon)),
   seriesMode (g.map (fun r => r.desc)),
   dateStr d⟩

/-- The method `WeatherDataProcessor.aggregate_daily_forecast`.  An empty input
table is a `pd.DataFrame` with no columns at all, so `groupby("date")`
raises `KeyError: 'date'`, caught by the surrounding `except Exception`
and re-raised as a `WeatherException`; a table built from typed rows
cannot fail otherwise.  The result keeps the first
`max(1, min(n_days, 5))` daily rows (`daily.head`). -/
def aggregate_daily_forecast (df : List ForecastRow) (n_days : ℤ) :
    Except PyErr (List DailyRow) :=
  if df.isEmpty then
    .error (.weatherError .base "Error aggregating daily forecast: \x27date\x27")
  else
    .ok (((groupDates df).map (fun d => mkDaily d (dateGroup df d))).take
      (max 1 (min n_days 5)).toNat)

/-! ### API client (`WeatherAPIClient`) -/

/-- The piece of an HTTP response that `_do_get` inspects after
`requests.get` returns: the status code, the raw body text, and the
result of `resp.json()` (`none` models a `json()` decode failure). -/
structure HttpResponse where
  status_code : ℤ
  text : String
  body : Option Json

/-- Python `f"{x}"` of a JSON value (only the string case matters to the
claims; number/compound renderings are approximations). -/
def pyFStr : Json → String
  | .str s => s
  | .num q => if q.den = 1 then toString q.num else toString q
  | .bool true => "True"
  | .bool false => "False"
  | .null => "None"
  | .arr _ => "[...]"
  | .obj _ => "\x7b...\x7d"

/-- The read `resp.json().get("message", "Not found")` under `except Exception`
falling back to `resp.text`: a non-dict JSON body makes `.get` raise
(caught), a decode failure makes `json()` raise (caught). -/
def msg404 (resp : HttpResponse) : String :=
  match resp.body with
  | some (Json.obj fs) =>
    match fs.lookup "message" with
    | some v => pyFStr v
    | none => "Not found"
  | _ => resp.text

/-- The read `resp.json().get("message", resp.text)` with the same fallback. -/
def msgOther (resp : HttpResponse) : String :=
  match resp.body with
  | some (Json.obj fs) =>
    match fs.lookup "message" with
    | some v => pyFStr v
    | none => resp.text
  | _ => resp.text

/-- The response-handling part of `WeatherAPIClient._do_get` (the network
call itself is external; the timeout / network-error branches raise
before any response exists and are not modelled). -/
def do_get (resp : HttpResponse) : Except PyErr Json :=
  if resp.status_code = 404 then
    .error (.weatherError .cityNotFound (msg404 resp ++ " (status 404)"))
  else if resp.status_code ≠ 200 then
    .error (.weatherError .apiRequest
      ("API responded with status " ++ toString resp.status_code ++ ": " ++ msgOther resp))
  else
    match resp.body with
    | some j => .ok j
    | none => .error (.weatherError .apiRequest "Gagal decode JSON dari response API")

/-- The method `fetch_current_weather` hands its response to `_do_get`; the query
parameters only shape the external network request. -/
def fetch_current_weather (resp : HttpResponse) : Except PyErr Json :=
  do_get resp

/-- The method `fetch_forecast` hands its response to `_do_get`. -/
def fetch_forecast (resp : HttpResponse) : Except PyErr Json :=
  do_get resp

/-- The constructed client: its key and timeout. -/
structure WeatherAPIClient where
  api_key : String
  timeout : ℤ
deriving DecidableEq, Repr

/-- The constructor `WeatherAPIClient.__init__`: raises `ValueError` on an empty or
whitespace-only key (`not api_key or api_key.strip() == ""`). -/
def WeatherAPIClient.make (api_key : String) (timeout : ℤ) :
    Except PyErr WeatherAPIClient :=
  if api_key = "" ∨ pyStrip api_key = "" then
    .error (.valueError "API key tidak boleh kosong bagi WeatherAPIClient")
  else .ok ⟨api_key, timeout⟩

/-! ### Service layer (`WeatherService`) -/

/-- The service state: the stored key (`none` models Python `None`) and
the lazily created client. -/
structure WeatherService where
  api_key : Option String
  api_client : Option WeatherAPIClient
deriving DecidableEq, Repr

/-- The constructor `WeatherService.__init__`: a total function — construction never
raises, whatever the key; the client starts unconstructed. -/
def WeatherService.make (api_key : Option String) : WeatherService :=
  ⟨api_key, none⟩

/-- Python falsiness of `self._api_key` (`None` or `""`). -/
def keyFalsy : Option String → Bool
  | none => true
  | some s => s = ""

/-- The method `WeatherService._ensure_client`.  On failure the assignment to
`self._api_client` never runs, so the state is unchanged and the next
call retries construction. -/
def ensure_client (s : WeatherService) : Except PyErr WeatherService :=
  match s.api_client with
  | some _ => .ok s
  | none =>
    if keyFalsy s.api_key then
      .error (.weatherError .apiRequest
        "API key tidak ditemukan. Set environment variable \x27WEATHER_API_KEY\x27 atau gunakan st.secrets.")
    else
      match WeatherAPIClient.make (s.api_key.getD "") 10 with
      | .ok c => .ok ⟨s.api_key, some c⟩
      | .error e => .error e

/-- The method `WeatherService.validate_city_input`. -/
def validate_city_input (city : String) : Except PyErr String :=
  if city = "" ∨ pyStrip city = "" then
    .error (.weatherError .invalidInput "Nama kota tidak boleh kosong")
  else
    let normalized := pyStrip city
    if normalized.length < 2 then
      .error (.weatherError .invalidInput "Nama kota terlalu pendek (min 2 karakter)")
    else .ok normalized

/-- The method `WeatherService.get_current_weather`, with the network abstracted as
the response the fetch receives. -/
def get_current_weather (s : WeatherService) (city : String)
    (resp : HttpResponse) : Except PyErr CurrentWeather := do
  let normalized ← validate_city_input city
  let _ ← ensure_client s
  let raw ← fetch_current_weather resp
  parse_current_weather raw normalized

/-- The method `WeatherService.get_hourly_forecast`: clamps `n_entries` to `[1,40]`,
builds the table and keeps its first rows. -/
def get_hourly_forecast (s : WeatherService) (resp : HttpResponse)
    (n_entries : ℤ) : Except PyErr (List ForecastRow) := do
  let n := max 1 (min n_entries 40)
  let _ ← ensure_client s
  let raw ← fetch_forecast resp
  let df ← build_forecast_dataframe raw
  .ok (df.take n.toNat)

/-- The method `WeatherService.get_daily_forecast`: clamps `n_days` to `[1,5]`,
builds the table and aggregates it. -/
def get_daily_forecast (s : WeatherService) (resp : HttpResponse)
    (n_days : ℤ) : Except PyErr (List DailyRow) := do
  let n := max 1 (min n_days 5)
  let _ ← ensure_client s
  let raw ← fetch_forecast resp
  let df ← build_forecast_dataframe raw
  aggregate_daily_forecast df n

/-! ### Helper lemmas: folds, modes, means -/

theorem foldl_min_mem {α : Type} [LinearOrder α] (cs : List α) (c : α) :
    cs.foldl min c ∈ c :: cs := by
  induction cs generalizing c with
  | nil => simp
  | cons d cs ih =>
    simp only [List.foldl_cons]
    rcases List.mem_cons.mp (ih (min c d)) with h | h
    · rw [h]
      rcases min_choice c d with hm | hm <;> rw [hm] <;> simp
    · simp [List.mem_cons, h]

theorem foldl_min_le {α : Type} [LinearOrder α] (cs : List α) (c : α) :
    ∀ x ∈ c :: cs, cs.foldl min c ≤ x := by
  induction cs generalizing c with
  | nil => simp
  | cons d cs ih =>
    intro x hx
    simp only [List.foldl_cons]
    rcases List.mem_cons.mp hx with h1 | hx'
    · rw [h1]
      exact le_trans (ih (min c d) _ (List.mem_cons_self _ _)) (min_le_left c d)
    · rcases List.mem_cons.mp hx' with h1 | hx''
      · rw [h1]
        exact le_trans (ih (min c d) _ (List.mem_cons_self _ _)) (min_le_right c d)
      · exact ih (min c d) _ (List.mem_cons_of_mem _ hx'')

theorem foldl_max_mem {α : Type} [LinearOrder α] (cs : List α) (c : α) :
    cs.foldl max c ∈ c :: cs := by
  induction cs generalizing c with
  | nil => simp
  | cons d cs ih =>
    simp only [List.foldl_cons]
    rcases List.mem_cons.mp (ih (max c d)) with h | h
    · rw [h]
      rcases max_choice c d with hm | hm <;> rw [hm] <;> simp
    · simp [List.mem_cons, h]

theorem le_foldl_max {α : Type} [LinearOrder α] (cs : List α) (c : α) :
    ∀ x ∈ c :: cs, x ≤ cs.foldl max c := by
  induction cs generalizing c with
  | nil => simp
  | cons d cs ih =>
    intro x hx
    simp only [List.foldl_cons]
    rcases List.mem_cons.mp hx with h1 | hx'
    · rw [h1]
      exact le_trans (le_max_left c d) (ih (max c d) _ (List.mem_cons_self _ _))
    · rcases List.mem_cons.mp hx' with h1 | hx''
      · rw [h1]
        exact le_trans (le_max_right c d) (ih (max c d) _ (List.mem_cons_self _ _))
      · exact ih (max c d) _ (List.mem_cons_of_mem _ hx'')

theorem le_foldr_max (l : List ℕ) : ∀ x ∈ l, x ≤ l.foldr max 0 := by
  induction l with
  | nil => simp
  | cons a l ih =>
    intro x hx
    rcases List.mem_cons.mp hx with rfl | hx'
    · exact le_max_left _ _
    · exact le_trans (ih x hx') (le_max_right _ _)

theorem foldr_max_mem_or_zero (l : List ℕ) :
    l.foldr max 0 ∈ l ∨ l.foldr max 0 = 0 := by
  induction l with
  | nil => simp
  | cons a l ih =>
    simp only [List.foldr_cons]
    rcases le_total a (l.foldr max 0) with h | h
    · rw [max_eq_right h]
      rcases ih with hm | hz
      · exact Or.inl (List.mem_cons_of_mem _ hm)
      · rw [hz]
        exact Or.inl (by simp [Nat.le_zero.mp (hz ▸ h)])
    · rw [max_eq_left h]
      exact Or.inl (List.mem_cons_self _ _)

theorem pyStrLtL_irrefl : ∀ cs : List Char, pyStrLtL cs cs = false
  | [] => rfl
  | c :: cs => by simp [pyStrLtL, pyStrLtL_irrefl cs]

theorem pyStrLtL_trichotomy : ∀ a b : List Char,
    pyStrLtL a b = true ∨ a = b ∨ pyStrLtL b a = true
  | [], [] => Or.inr (Or.inl rfl)
  | [], _ :: _ => Or.inl rfl
  | _ :: _, [] => Or.inr (Or.inr rfl)
  | a :: as, b :: bs => by
    rcases Nat.lt_trichotomy a.toNat b.toNat with h | h | h
    · exact Or.inl (by simp [pyStrLtL, h])
    · have hab : a = b := Char.ext (UInt32.ext h)
      subst hab
      rcases pyStrLtL_trichotomy as bs with h2 | h2 | h2
      · exact Or.inl (by simp [pyStrLtL, h2])
      · exact Or.inr (Or.inl (by rw [h2]))
      · exact Or.inr (Or.inr (by simp [pyStrLtL, h2]))
    · exact Or.inr (Or.inr (by simp [pyStrLtL, h]))

theorem pyStrLtL_trans : ∀ a b c : List Char,
    pyStrLtL a b = true → pyStrLtL b c = true → pyStrLtL a c = true
  | [], [], _, h1, _ => by simp [pyStrLtL] at h1
  | [], _ :: _, [], _, h2 => by simp [pyStrLtL] at h2
  | [], _ :: _, _ :: _, _, _ => rfl
  | _ :: _, [], _, h1, _ => by simp [pyStrLtL] at h1
  | _ :: _, _ :: _, [], _, h2 => by simp [pyStrLtL] at h2
  | a :: as, b :: bs, c :: cs, h1, h2 => by
    simp only [pyStrLtL] at h1 h2 ⊢
    rcases Nat.lt_trichotomy a.toNat b.toNat with hab | hab | hab
    · rcases Nat.lt_trichotomy b.toNat c.toNat with hbc | hbc | hbc
      · simp [show a.toNat < c.toNat by omega]
      · simp [show a.toNat < c.toNat by omega]
      · simp [hbc, show ¬ b.toNat < c.toNat by omega] at h2
    · rcases Nat.lt_trichotomy b.toNat c.toNat with hbc | hbc | hbc
      · simp [show a.toNat < c.toNat by omega]
      · simp only [show ¬ a.toNat < b.toNat by omega, if_false,
          show ¬ b.toNat < a.toNat by omega, if_false] at h1
        simp only [show ¬ b.toNat < c.toNat by omega, if_false,
          show ¬ c.toNat < b.toNat by omega, if_false] at h2
        simp [show ¬ a.toNat < c.toNat by omega, show ¬ c.toNat < a.toNat by omega,
          pyStrLtL_trans as bs cs h1 h2]
      · simp [hbc, show ¬ b.toNat < c.toNat by omega] at h2
    · simp [hab, show ¬ a.toNat < b.toNat by omega] at h1

theorem pyStrLe_refl (a : String) : pyStrLe a a = true := by
  simp [pyStrLe, pyStrLt, pyStrLtL_irrefl]

theorem pyStrLtL_asymm {a b : List Char} (h : pyStrLtL a b = true) :
    pyStrLtL b a = false := by
  rcases hba : pyStrLtL b a with _ | _
  · rfl
  · have := pyStrLtL_trans _ _ _ h hba
    rw [pyStrLtL_irrefl] at this
    simp at this

theorem pyStrLe_of_not (a b : String) (h : ¬ pyStrLe a b = true) :
    pyStrLe b a = true := by
  have h' : pyStrLt b a = true := by
    rcases hx : pyStrLt b a with _ | _
    · exact absurd (by simp [pyStrLe, hx]) h
    · rfl
  simp only [pyStrLe, pyStrLt] at h' ⊢
  rw [pyStrLtL_asymm h']
  rfl

theorem pyStrLe_trans {a b c : String} (h1 : pyStrLe a b = true)
    (h2 : pyStrLe b c = true) : pyStrLe a c = true := by
  simp only [pyStrLe, pyStrLt, Bool.not_eq_true'] at h1 h2 ⊢
  rcases hca : pyStrLtL c.data a.data with _ | _
  · rfl
  · exfalso
    rcases pyStrLtL_trichotomy b.data a.data with h3 | h3 | h3
    · rw [h3] at h1
      simp at h1
    · rw [h3] at h2
      rw [hca] at h2
      simp at h2
    · have := pyStrLtL_trans _ _ _ hca h3
      rw [h2] at this
      simp at this

theorem strMin_choice (a b : String) : strMin a b = a ∨ strMin a b = b := by
  by_cases h : pyStrLe a b = true
  · left
    rw [strMin, if_pos h]
  · right
    rw [strMin, if_neg h]

theorem strMin_le_left (a b : String) : pyStrLe (strMin a b) a = true := by
  by_cases h : pyStrLe a b = true
  · rw [strMin, if_pos h]
    exact pyStrLe_refl a
  · rw [strMin, if_neg h]
    exact pyStrLe_of_not a b h

theorem strMin_le_right (a b : String) : pyStrLe (strMin a b) b = true := by
  by_cases h : pyStrLe a b = true
  · rw [strMin, if_pos h]
    exact h
  · rw [strMin, if_neg h]
    exact pyStrLe_refl b

theorem foldl_strMin_mem (cs : List String) (c : String) :
    cs.foldl strMin c ∈ c :: cs := by
  induction cs generalizing c with
  | nil => simp
  | cons d cs ih =>
    simp only [List.foldl_cons]
    rcases List.mem_cons.mp (ih (strMin c d)) with h | h
    · rw [h]
      rcases strMin_choice c d with hm | hm <;> rw [hm] <;> simp
    · simp [List.mem_cons, h]

theorem foldl_strMin_le (cs : List String) (c : String) :
    ∀ x ∈ c :: cs, pyStrLe (cs.foldl strMin c) x = true := by
  induction cs generalizing c with
  | nil => simpa using pyStrLe_refl c
  | cons d cs ih =>
    intro x hx
    simp only [List.foldl_cons]
    rcases List.mem_cons.mp hx with h1 | hx'
    · rw [h1]
      exact pyStrLe_trans (ih (strMin c d) _ (List.mem_cons_self _ _))
        (strMin_le_left c d)
    · rcases List.mem_cons.mp hx' with h1 | hx''
      · rw [h1]
        exact pyStrLe_trans (ih (strMin c d) _ (List.mem_cons_self _ _))
          (strMin_le_right c d)
      · exact ih (strMin c d) _ (List.mem_cons_of_mem _ hx'')

theorem countIn_pos {xs : List String} {v : String} (h : v ∈ xs) :
    0 < countIn xs v := by
  have hv : v ∈ xs.filter (fun w => w == v) := by
    simp [List.mem_filter, h]
  exact List.length_pos.mpr (List.ne_nil_of_mem hv)

theorem countIn_le_maxCount {xs : List String} {v : String} (h : v ∈ xs) :
    countIn xs v ≤ maxCount xs :=
  le_foldr_max _ _ (List.mem_map_of_mem (fun v => countIn xs v) h)

theorem maxCount_attained {xs : List String} (h : xs ≠ []) :
    ∃ v ∈ xs, countIn xs v = maxCount xs := by
  rcases foldr_max_mem_or_zero (xs.map (fun v => countIn xs v)) with hm | hz
  · rcases List.mem_map.mp hm with ⟨v, hv, he⟩
    exact ⟨v, hv, he⟩
  · rcases List.exists_mem_of_ne_nil xs h with ⟨v, hv⟩
    have h1 : 0 < countIn xs v := countIn_pos hv
    have h2 : countIn xs v ≤ maxCount xs := countIn_le_maxCount hv
    rw [maxCount] at h2
    omega

theorem modeCands_ne_nil {xs : List String} (h : xs ≠ []) :
    modeCands xs ≠ [] := by
  rcases maxCount_attained h with ⟨v, hv, he⟩
  apply List.ne_nil_of_mem (a := v)
  simp [modeCands, List.mem_filter, hv, he]

/-- Joint characterisation of `seriesMode` on a non-empty series: it is a
most frequent value and the least such value in Python's string order. -/
theorem seriesMode_spec {xs : List String} (h : xs ≠ []) :
    seriesMode xs ∈ xs ∧ countIn xs (seriesMode xs) = maxCount xs ∧
      ∀ v ∈ xs, countIn xs v = maxCount xs → pyStrLe (seriesMode xs) v = true := by
  have hc := modeCands_ne_nil h
  rcases hcands : modeCands xs with _ | ⟨c, cs⟩
  · exact absurd hcands hc
  have hmode : seriesMode xs = cs.foldl strMin c := by
    rw [seriesMode, hcands]
  have hmem : seriesMode xs ∈ modeCands xs := by
    rw [hmode, hcands]
    exact foldl_strMin_mem cs c
  have hflt := List.mem_filter.mp (by rw [modeCands] at hmem; exact hmem)
  refine ⟨hflt.1, by simpa using hflt.2, ?_⟩
  intro v hv hcnt
  have hvc : v ∈ modeCands xs := by
    simp [modeCands, List.mem_filter, hv, hcnt]
  rw [hmode]
  exact foldl_strMin_le cs c v (hcands ▸ hvc)

theorem minQ_le {l : List ℚ} {x : ℚ} (h : x ∈ l) : minQ l ≤ x := by
  rcases l with _ | ⟨c, cs⟩
  · simp at h
  · exact foldl_min_le cs c x h

theorem le_maxQ {l : List ℚ} {x : ℚ} (h : x ∈ l) : x ≤ maxQ l := by
  rcases l with _ | ⟨c, cs⟩
  · simp at h
  · exact le_foldl_max cs c x h

theorem minQ_le_meanQ {l : List ℚ} (h : l ≠ []) : minQ l ≤ meanQ l := by
  have hlen : (0 : ℚ) < l.length := by
    have := List.length_pos.mpr h
    exact_mod_cast this
  have hsum : (l.length : ℚ) * minQ l ≤ l.sum := by
    have := List.card_nsmul_le_sum l (minQ l) (fun x hx => minQ_le hx)
    simpa [nsmul_eq_mul] using this
  rw [meanQ, le_div_iff₀ hlen, mul_comm]
  exact hsum

theorem meanQ_le_maxQ {l : List ℚ} (h : l ≠ []) : meanQ l ≤ maxQ l := by
  have hlen : (0 : ℚ) < l.length := by
    have := List.length_pos.mpr h
    exact_mod_cast this
  have hsum : l.sum ≤ (l.length : ℚ) * maxQ l := by
    have := List.sum_le_card_nsmul l (maxQ l) (fun x hx => le_maxQ hx)
    simpa [nsmul_eq_mul] using this
  rw [meanQ, div_le_iff₀ hlen, mul_comm]
  exact hsum

/-! ### Helper lemmas: the daily aggregation -/

theorem groupDates_perm (df : List ForecastRow) :
    (groupDates df).Perm ((df.map (fun r => r.date)).dedup) :=
  List.perm_insertionSort _ _

theorem mem_groupDates {df : List ForecastRow} {d : ℤ} :
    d ∈ groupDates df ↔ d ∈ df.map (fun r => r.date) := by
  rw [(groupDates_perm df).mem_iff, List.mem_dedup]

theorem groupDates_sorted (df : List ForecastRow) :
    List.Pairwise (· < ·) (groupDates df) := by
  have hle : List.Pairwise (fun a b : ℤ => a ≤ b) (groupDates df) :=
    List.sorted_insertionSort _ _
  have hnd : (groupDates df).Nodup :=
    (groupDates_perm df).nodup_iff.mpr (List.nodup_dedup _)
  exact (hle.and hnd).imp (fun h => lt_of_le_of_ne h.1 h.2)

theorem dateGroup_ne_nil {df : List ForecastRow} {d : ℤ}
    (h : d ∈ groupDates df) : dateGroup df d ≠ [] := by
  rcases List.mem_map.mp (mem_groupDates.mp h) with ⟨r, hr, hd⟩
  apply List.ne_nil_of_mem (a := r)
  simp [dateGroup, List.mem_filter, hr, hd]

theorem aggregate_ok {df : List ForecastRow} (n : ℤ) (h : df ≠ []) :
    aggregate_daily_forecast df n =
      .ok (((groupDates df).map (fun d => mkDaily d (dateGroup df d))).take
        (max 1 (min n 5)).toNat) := by
  rw [aggregate_daily_forecast, if_neg]
  simp [List.isEmpty_iff, h]

theorem aggregate_ok_inv {df : List ForecastRow} {n : ℤ} {out : List DailyRow}
    (h : aggregate_daily_forecast df n = .ok out) :
    df ≠ [] ∧
      out = ((groupDates df).map (fun d => mkDaily d (dateGroup df d))).take
        (max 1 (min n 5)).toNat := by
  have hne : df ≠ [] := by
    intro hnil
    rw [hnil] at h
    simp [aggregate_daily_forecast] at h
  refine ⟨hne, ?_⟩
  rw [aggregate_ok n hne] at h
  exact (Except.ok.injEq _ _).mp h.symm

theorem mem_aggregate {df : List ForecastRow} {n : ℤ} {out : List DailyRow}
    {row : DailyRow} (h : aggregate_daily_forecast df n = .ok out)
    (hrow : row ∈ out) :
    ∃ d ∈ groupDates df, row = mkDaily d (dateGroup df d) := by
  rcases aggregate_ok_inv h with ⟨-, rfl⟩
  have hmem := (List.take_subset _ _) hrow
  rcases List.mem_map.mp hmem with ⟨d, hd, he⟩
  exact ⟨d, hd, he.symm⟩

/-! ### Helper lemmas: `Except` plumbing and row building -/

theorem bind_ok_inv {α β : Type} {x : Except PyErr α} {f : α → Except PyErr β}
    {r : β} (h : (x >>= f) = .ok r) : ∃ a, x = .ok a ∧ f a = .ok r := by
  cases x with
  | ok a => exact ⟨a, rfl, h⟩
  | error e => simp [Bind.bind, Except.bind] at h

theorem except_pure_bind {α β : Type} (a : α) (f : α → Except PyErr β) :
    ((.ok a : Except PyErr α) >>= f) = f a := rfl

theorem wrapCaught_ok_iff {α : Type} {ctx : String} {x : Except PyErr α}
    {a : α} : wrapCaught ctx x = .ok a ↔ x = .ok a := by
  cases x with
  | ok b => simp [wrapCaught]
  | error e =>
    simp only [wrapCaught]
    constructor
    · intro h
      split at h <;> simp at h
    · intro h
      simp at h

theorem buildRows_ok {tz : Json} {es : List Json} {rows : List ForecastRow}
    (h : buildRows tz es = .ok rows) :
    rows.length = es.length ∧
      ∀ i (hi : i < es.length) (hr : i < rows.length),
        buildRow tz es[i] = .ok rows[i] := by
  induction es generalizing rows with
  | nil =>
    simp only [buildRows] at h
    cases h
    exact ⟨rfl, fun i hi => by simp at hi⟩
  | cons e es ih =>
    simp only [buildRows] at h
    rcases bind_ok_inv h with ⟨r, hr1, h2⟩
    rcases bind_ok_inv h2 with ⟨rs, hrs1, h3⟩
    cases h3
    rcases ih hrs1 with ⟨hlen, hget⟩
    refine ⟨by simp [hlen], ?_⟩
    intro i hi hri
    cases i with
    | zero => simpa using hr1
    | succ i =>
      have hi' : i < es.length := by simpa using hi
      have hri' : i < rs.length := by simpa using hri
      simpa using hget i hi' hri'

/-! ### Claim C1: representative icon/description per day -/

/-- Concrete two-row table for claim C1: one date, tied icon and
description counts, `"11d"`/`"Light rain"` occurring first. -/
def c1rowA : ForecastRow := ⟨0, 0, 200, 20, 50, 1, "Light rain", "11d"⟩

/-- Second row of the C1 table, chronologically later. -/
def c1rowB : ForecastRow := ⟨10800, 10800, 200, 10, 60, 3, "Clear sky", "10d"⟩

/-- C1 (counterexample): in the group `[c1rowA, c1rowB]` the icons
`"11d"` and `"10d"` are tied (one occurrence each) and `"11d"` occurs
first, yet the daily summary carries `"10d"` and `"Clear sky"` — the tie
is broken by sorted order (`Series.mode` returns its values sorted), not
by first occurrence in the group's chronological order. -/
theorem claim_C1_counterexample :
    aggregate_daily_forecast [c1rowA, c1rowB] 5 =
      .ok [mkDaily 200 (dateGroup [c1rowA, c1rowB] 200)] ∧
    (mkDaily 200 (dateGroup [c1rowA, c1rowB] 200)).icon = "10d" ∧
    (mkDaily 200 (dateGroup [c1rowA, c1rowB] 200)).desc = "Clear sky" ∧
    countIn [c1rowA.icon, c1rowB.icon] c1rowA.icon =
      countIn [c1rowA.icon, c1rowB.icon] c1rowB.icon ∧
    c1rowA.icon = "11d" ∧ c1rowB.icon = "10d" :=
  ⟨rfl, rfl, rfl, rfl, rfl, rfl⟩

/-- C1 (amended): each daily summary row's icon and description are a
most frequent value of that column within the row's date group, and when
several values are tied for most frequent the **least tied value in
lexicographic order** is chosen (pandas `Series.mode` sorts its result),
not the first-occurring one. -/
theorem claim_C1 (df : List ForecastRow) (n : ℤ) (out : List DailyRow)
    (row : DailyRow) (hok : aggregate_daily_forecast df n = .ok out)
    (hrow : row ∈ out) :
    dateGroup df row.date ≠ [] ∧
    (row.icon ∈ (dateGroup df row.date).map (fun r => r.icon) ∧
      countIn ((dateGroup df row.date).map (fun r => r.icon)) row.icon =
        maxCount ((dateGroup df row.date).map (fun r => r.icon)) ∧
      ∀ v ∈ (dateGroup df row.date).map (fun r => r.icon),
        countIn ((dateGroup df row.date).map (fun r => r.icon)) v =
          maxCount ((dateGroup df row.date).map (fun r => r.icon)) →
        pyStrLe row.icon v = true) ∧
    (row.desc ∈ (dateGroup df row.date).map (fun r => r.desc) ∧
      countIn ((dateGroup df row.date).map (fun r => r.desc)) row.desc =
        maxCount ((dateGroup df row.date).map (fun r => r.desc)) ∧
      ∀ v ∈ (dateGroup df row.date).map (fun r => r.desc),
        countIn ((dateGroup df row.date).map (fun r => r.desc)) v =
          maxCount ((dateGroup df row.date).map (fun r => r.desc)) →
        pyStrLe row.desc v = true) := by
  rcases mem_aggregate hok hrow with ⟨d, hd, rfl⟩
  have hg : dateGroup df d ≠ [] := dateGroup_ne_nil hd
  have hicons : (dateGroup df d).map (fun r => r.icon) ≠ [] := by
    simpa [List.map_eq_nil_iff] using hg
  have hdescs : (dateGroup df d).map (fun r => r.desc) ≠ [] := by
    simpa [List.map_eq_nil_iff] using hg
  have hi := seriesMode_spec hicons
  have hm := seriesMode_spec hdescs
  exact ⟨hg, ⟨hi.1, hi.2.1, hi.2.2⟩, ⟨hm.1, hm.2.1, hm.2.2⟩⟩

/-- Concrete input for the C1 witness: one date, `"10d"` strictly more
frequent than `"09d"`. -/
def c1wdf : List ForecastRow :=
  [⟨0, 0, 300, 20, 50, 1, "Rain", "09d"⟩,
   ⟨10800, 10800, 300, 22, 50, 1, "Rain", "10d"⟩,
   ⟨21600, 21600, 300, 24, 50, 1, "Rain", "10d"⟩]

/-- C1 witness: the amended theorem applied to a concrete table. -/
theorem claim_C1_witness :
    dateGroup c1wdf 300 ≠ [] ∧
    ("10d" ∈ (dateGroup c1wdf 300).map (fun r => r.icon) ∧
      countIn ((dateGroup c1wdf 300).map (fun r => r.icon)) "10d" =
        maxCount ((dateGroup c1wdf 300).map (fun r => r.icon)) ∧
      ∀ v ∈ (dateGroup c1wdf 300).map (fun r => r.icon),
        countIn ((dateGroup c1wdf 300).map (fun r => r.icon)) v =
          maxCount ((dateGroup c1wdf 300).map (fun r => r.icon)) →
        pyStrLe "10d" v = true) ∧
    ("Rain" ∈ (dateGroup c1wdf 300).map (fun r => r.desc) ∧
      countIn ((dateGroup c1wdf 300).map (fun r => r.desc)) "Rain" =
        maxCount ((dateGroup c1wdf 300).map (fun r => r.desc)) ∧
      ∀ v ∈ (dateGroup c1wdf 300).map (fun r => r.desc),
        countIn ((dateGroup c1wdf 300).map (fun r => r.desc)) v =
          maxCount ((dateGroup c1wdf 300).map (fun r => r.desc)) →
        pyStrLe "Rain" v = true) :=
  claim_C1 c1wdf 5 [mkDaily 300 (dateGroup c1wdf 300)]
    (mkDaily 300 (dateGroup c1wdf 300)) (by rfl) (by simp)

/-! ### Claim C2: row count and date order of the daily summary -/

/-- C2: on a non-empty table, `aggregate_daily_forecast` succeeds and
returns exactly `min k (clamp n_days 1 5)` rows, where `k` is the number
of distinct dates; the row dates are strictly ascending, every omitted
date is later than every kept date (earliest dates first), and the result
never exceeds 5 rows. -/
theorem claim_C2 (df : List ForecastRow) (n : ℤ) (hdf : df ≠ []) :
    ∃ out, aggregate_daily_forecast df n = .ok out ∧
      out.length =
        min ((df.map (fun r => r.date)).dedup.length) (max 1 (min n 5)).toNat ∧
      List.Pairwise (· < ·) (out.map (fun r => r.date)) ∧
      (∀ d ∈ df.map (fun r => r.date), d ∉ out.map (fun r => r.date) →
        ∀ e ∈ out.map (fun r => r.date), e < d) ∧
      out.length ≤ 5 := by
  refine ⟨_, aggregate_ok n hdf, ?_⟩
  have hmap :
      (((groupDates df).map (fun d => mkDaily d (dateGroup df d))).take
          (max 1 (min n 5)).toNat).map (fun r => r.date) =
        (groupDates df).take (max 1 (min n 5)).toNat := by
    rw [← List.map_take, List.map_map]
    exact List.map_id' _
  have hm5 : (max 1 (min n 5)).toNat ≤ 5 := by omega
  refine ⟨?_, ?_, ?_, ?_⟩
  · rw [List.length_take, List.length_map, (groupDates_perm df).length_eq,
      Nat.min_comm]
  · rw [hmap]
    exact List.Pairwise.sublist (List.take_sublist _ _) (groupDates_sorted df)
  · intro d hd hnotin e he
    rw [hmap] at hnotin he
    have hdS : d ∈ groupDates df := mem_groupDates.mpr hd
    have hpw : List.Pairwise (· < ·)
        ((groupDates df).take (max 1 (min n 5)).toNat ++
          (groupDates df).drop (max 1 (min n 5)).toNat) := by
      rw [List.take_append_drop]
      exact groupDates_sorted df
    have hcross := (List.pairwise_append.mp hpw).2.2
    have hdDrop : d ∈ (groupDates df).drop (max 1 (min n 5)).toNat := by
      have hdS' : d ∈ (groupDates df).take (max 1 (min n 5)).toNat ++
          (groupDates df).drop (max 1 (min n 5)).toNat := by
        rw [List.take_append_drop]
        exact hdS
      rcases List.mem_append.mp hdS' with h | h
      · exact absurd h hnotin
      · exact h
    exact hcross e he d hdDrop
  · rw [List.length_take]
    exact le_trans (Nat.min_le_left _ _) hm5

/-- Concrete input for the C2 witness: two rows on two distinct dates,
requested day count 1. -/
def c2wdf : List ForecastRow :=
  [⟨0, 25200, 0, 28, 70, 2, "Haze", "50d"⟩,
   ⟨86400, 111600, 1, 31, 65, 3, "Haze", "50d"⟩]

/-- C2 witness: the theorem applied to a concrete two-date table with
`n_days = 1`. -/
theorem claim_C2_witness :
    ∃ out, aggregate_daily_forecast c2wdf 1 = .ok out ∧
      out.length =
        min ((c2wdf.map (fun r => r.date)).dedup.length)
          (max 1 (min (1 : ℤ) 5)).toNat ∧
      List.Pairwise (· < ·) (out.map (fun r => r.date)) ∧
      (∀ d ∈ c2wdf.map (fun r => r.date), d ∉ out.map (fun r => r.date) →
        ∀ e ∈ out.map (fun r => r.date), e < d) ∧
      out.length ≤ 5 :=
  claim_C2 c2wdf 1 (by simp [c2wdf])

/-! ### Claim C3: local datetime and date of each forecast row -/

/-- Fields of a successfully built row, given the entry's epoch `E` and a
numeric timezone offset `T`: the row records `E`, the local datetime
`E + T`, and that datetime's calendar day. -/
theorem buildRow_fields {T E : ℚ} {entry : Json} {r : ForecastRow}
    (hdt : dictGet entry "dt" = .ok (Json.num E))
    (h : buildRow (Json.num T) entry = .ok r) :
    r.dt = E ∧ r.datetime = E + T ∧ r.date = ⌊(E + T) / 86400⌋ := by
  unfold buildRow at h
  obtain ⟨dtj, h1, h⟩ := bind_ok_inv h
  rw [hdt] at h1
  injection h1 with h1e
  subst h1e
  obtain ⟨dtv, h2, h⟩ := bind_ok_inv h
  simp only [asNumber] at h2
  injection h2 with h2e
  subst h2e
  obtain ⟨tzv, h3, h⟩ := bind_ok_inv h
  simp only [asNumber] at h3
  injection h3 with h3e
  subst h3e
  repeat obtain ⟨_, -, h⟩ := bind_ok_inv h
  injection h with he
  subst he
  exact ⟨rfl, rfl, rfl⟩

/-- C3: whenever `build_forecast_dataframe` succeeds on a payload whose
timezone read (nested `city`/`timezone`, defaulting to `0`) yields `T`,
the row built for an entry with epoch timestamp `E` has local datetime
`E + T` (UTC plus offset seconds) and date equal to that local datetime's
calendar day. -/
theorem claim_C3 (j : Json) (T : ℚ) (es : List Json)
    (rows : List ForecastRow) (i : ℕ) (E : ℚ)
    (htz : forecastTzJson j = .ok (Json.num T))
    (hes : forecastEntries j = .ok es)
    (hrows : build_forecast_dataframe j = .ok rows)
    (hi : i < es.length)
    (hdt : dictGet es[i] "dt" = .ok (Json.num E)) :
    ∃ hr : i < rows.length,
      rows[i].dt = E ∧ rows[i].datetime = E + T ∧
        rows[i].date = ⌊(E + T) / 86400⌋ := by
  rw [build_forecast_dataframe] at hrows
  have hb : build_body j = .ok rows := wrapCaught_ok_iff.mp hrows
  rw [build_body] at hb
  obtain ⟨tzj, h1, hb⟩ := bind_ok_inv hb
  rw [htz] at h1
  injection h1 with h1e
  subst h1e
  obtain ⟨es', h2, hb⟩ := bind_ok_inv hb
  rw [hes] at h2
  injection h2 with h2e
  subst h2e
  rcases buildRows_ok hb with ⟨hlen, hget⟩
  have hr : i < rows.length := by omega
  exact ⟨hr, buildRow_fields hdt (hget i hi hr)⟩

/-- Concrete forecast entry for the C3 witness. -/
def c3entry : Json :=
  Json.obj [("dt", Json.num 1700000000),
    ("main", Json.obj [("temp", Json.num 30), ("humidity", Json.num 70)]),
    ("wind", Json.obj [("speed", Json.num 2)]),
    ("weather", Json.arr [Json.obj [("description", Json.str "haze"),
      ("icon", Json.str "50d")]])]

/-- Concrete forecast payload for the C3 witness (Jakarta offset,
25200 s). -/
def c3payload : Json :=
  Json.obj [("city", Json.obj [("timezone", Json.num 25200)]),
    ("list", Json.arr [c3entry])]

/-- The row table built from `c3payload`. -/
def c3rows : List ForecastRow :=
  [⟨1700000000, to_local_datetime 1700000000 25200,
    dateOfDatetime (to_local_datetime 1700000000 25200), 30, 70, 2,
    "Haze", "50d"⟩]

/-- C3 witness: the theorem applied to the concrete payload. -/
theorem claim_C3_witness :
    ∃ hr : 0 < c3rows.length,
      c3rows[0].dt = 1700000000 ∧
        c3rows[0].datetime = 1700000000 + 25200 ∧
        c3rows[0].date = ⌊((1700000000 : ℚ) + 25200) / 86400⌋ :=
  claim_C3 c3payload 25200 [c3entry] c3rows 0 1700000000
    (by rfl) (by rfl) (by rfl) (by decide) (by rfl)

/-! ### Claim C4: city input validation -/

/-- C4: `validate_city_input` rejects empty or whitespace-only strings
and strings whose trimmed form is shorter than 2 characters with an
`InvalidInputException`, and otherwise returns exactly the trimmed
string. -/
theorem claim_C4 (city : String) :
    (pyStrip city = "" →
      validate_city_input city =
        .error (.weatherError .invalidInput "Nama kota tidak boleh kosong")) ∧
    (pyStrip city ≠ "" → (pyStrip city).length < 2 →
      validate_city_input city =
        .error (.weatherError .invalidInput
          "Nama kota terlalu pendek (min 2 karakter)")) ∧
    (2 ≤ (pyStrip city).length → validate_city_input city = .ok (pyStrip city)) := by
  refine ⟨?_, ?_, ?_⟩
  · intro h
    rw [validate_city_input, if_pos (Or.inr h)]
  · intro h1 h2
    have hcond : ¬ (city = "" ∨ pyStrip city = "") := by
      rintro (hc | hc)
      · exact h1 (by rw [hc]; rfl)
      · exact h1 hc
    simp only [validate_city_input, if_neg hcond, if_pos h2]
  · intro h
    have hne : pyStrip city ≠ "" := by
      intro hc
      rw [hc] at h
      simp at h
    have hcond : ¬ (city = "" ∨ pyStrip city = "") := by
      rintro (hc | hc)
      · exact hne (by rw [hc]; rfl)
      · exact hne hc
    simp only [validate_city_input, if_neg hcond, if_neg (by omega : ¬ (pyStrip city).length < 2)]

/-- C4 witness: the three behaviours at concrete city strings
(whitespace-only, one trimmed character, a normal name with surrounding
spaces). -/
theorem claim_C4_witness :
    validate_city_input "   " =
      .error (.weatherError .invalidInput "Nama kota tidak boleh kosong") ∧
    validate_city_input " B " =
      .error (.weatherError .invalidInput
        "Nama kota terlalu pendek (min 2 karakter)") ∧
    validate_city_input "  Bandung  " = .ok "Bandung" := by
  refine ⟨(claim_C4 "   ").1 (by rfl), (claim_C4 " B ").2.1 (by decide) (by decide), ?_⟩
  have h := (claim_C4 "  Bandung  ").2.2 (by decide)
  rw [h]
  rfl

/-! ### Claim C5: error wrapping in `parse_current_weather` -/

/-- C5 (amended): `parse_current_weather` wraps every `KeyError`,
`IndexError` or `TypeError` raised by its body in a Processing-kind
`WeatherException` (in particular the one for a missing `"main"` key),
and never surfaces one of those three unwrapped; however exceptions
outside that caught tuple — e.g. the `ValueError` from `float()` on a
non-numeric string — escape uncategorised. -/
theorem claim_C5 (raw : Json) (city : String) :
    (∀ e, parse_current_weather_body raw city = .error e → isCaught e = true →
      parse_current_weather raw city =
        .error (.weatherError .base
          ("Error parsing current weather: " ++ pyErrStr e))) ∧
    (∀ e, parse_current_weather raw city = .error e → isCaught e = false) := by
  constructor
  · intro e h1 h2
    show wrapCaught "Error parsing current weather"
      (parse_current_weather_body raw city) = _
    rw [h1]
    simp [wrapCaught, h2]
  · intro e h
    have hw : wrapCaught "Error parsing current weather"
        (parse_current_weather_body raw city) = .error e := h
    cases hb : parse_current_weather_body raw city with
    | ok w =>
      rw [hb] at hw
      simp [wrapCaught] at hw
    | error eb =>
      rw [hb] at hw
      by_cases hc : isCaught eb = true
      · rw [show wrapCaught "Error parsing current weather"
            (Except.error eb : Except PyErr CurrentWeather) =
            .error (.weatherError .base
              ("Error parsing current weather: " ++ pyErrStr eb)) from by
            simp [wrapCaught, hc]] at hw
        injection hw with he
        rw [← he]
        rfl
      · rw [show wrapCaught "Error parsing current weather"
            (Except.error eb : Except PyErr CurrentWeather) = .error eb from by
            simp [wrapCaught, hc]] at hw
        injection hw with he
        rw [← he]
        simpa using hc

/-- Current-weather payload with no `"main"` key, for the C5 witness. -/
def c5missRaw : Json :=
  Json.obj [("weather", Json.arr [Json.obj
    [("description", Json.str "clear sky"), ("icon", Json.str "01d")]])]

/-- C5 witness: a payload missing `"main"` makes the body raise
`KeyError("main")`, and the theorem yields the wrapped Processing
error. -/
theorem claim_C5_witness :
    parse_current_weather c5missRaw "Bandung" =
      .error (.weatherError .base
        "Error parsing current weather: \x27main\x27") :=
  (claim_C5 c5missRaw "Bandung").1 (.keyError "main") (by rfl) (by rfl)

/-- Current-weather payload whose `main.temp` is the non-numeric string
`"abc"`; every key the parser touches exists. -/
def c5badRaw : Json :=
  Json.obj [("weather", Json.arr [Json.obj
      [("description", Json.str "clear sky"), ("icon", Json.str "01d")]]),
    ("main", Json.obj [("temp", Json.str "abc"),
      ("pressure", Json.num 1010), ("humidity", Json.num 50)]),
    ("coord", Json.obj [("lat", Json.num 0), ("lon", Json.num 0)])]

/-- C5 (counterexample): on `c5badRaw` the parser escapes with a bare
`ValueError` (from `float("abc")`, which the
`except (KeyError, IndexError, TypeError)` clause does not catch), not
with a Processing-kind weather error — refuting "never escapes with an
uncategorized exception". -/
theorem claim_C5_counterexample :
    parse_current_weather c5badRaw "Oslo" =
      .error (.valueError
        "could not convert string to float: \x27abc\x27") ∧
    isWeatherError (parse_current_weather c5badRaw "Oslo") = false :=
  ⟨rfl, rfl⟩

/-! ### Claim C6: field extraction of `parse_current_weather` -/

/-- Canonical well-formed current-weather payload: a first weather entry
with the given description and icon (possibly followed by further
entries), a `"main"` section, an optional `"wind"` section, and a
`"coord"` section. -/
def mkCurrentPayload (desc : String) (icon : Json) (temp press hum : ℚ)
    (wind : Option ℚ) (lat lon : ℚ) (wrest : List Json) : Json :=
  Json.obj ([("weather", Json.arr (Json.obj
      [("description", Json.str desc), ("icon", icon)] :: wrest)),
    ("main", Json.obj [("temp", Json.num temp), ("pressure", Json.num press),
      ("humidity", Json.num hum)])] ++
    (match wind with
     | some w => [("wind", Json.obj [("speed", Json.num w)])]
     | none => []) ++
    [("coord", Json.obj [("lat", Json.num lat), ("lon", Json.num lon)])])

/-- The mocked Jakarta current-weather response. -/
def jakartaRaw : Json :=
  Json.obj [("coord", Json.obj [("lon", Json.num 106.8),
      ("lat", Json.num (-6.2))]),
    ("weather", Json.arr [Json.obj [("description",
      Json.str "scattered clouds"), ("icon", Json.str "03d")]]),
    ("main", Json.obj [("temp", Json.num 30.5), ("pressure", Json.num 1008),
      ("humidity", Json.num 70)]),
    ("wind", Json.obj [("speed", Json.num 3.2)])]

/-- C6: on every well-formed payload the parser returns the capitalised
first-entry description, the first-entry icon code, temperature, pressure
and humidity from `"main"` (the latter two as Python `int`s), wind speed
from the optional `"wind"` section defaulting to `0.0`, and the
coordinates; in particular the mocked Jakarta payload yields the expected
record (`int(1008) = 1008`, `int(70) = 70`). -/
theorem claim_C6 :
    (∀ (city desc : String) (icon : Json) (temp press hum lat lon : ℚ)
        (wind : Option ℚ) (wrest : List Json),
      parse_current_weather
          (mkCurrentPayload desc icon temp press hum wind lat lon wrest) city =
        .ok ⟨city, pyCapitalizeStr desc, icon, temp, qTrunc press, qTrunc hum,
          wind.getD 0, lat, lon⟩) ∧
    parse_current_weather jakartaRaw "Jakarta" =
      .ok ⟨"Jakarta", "Scattered clouds", Json.str "03d", 30.5, qTrunc 1008,
        qTrunc 70, 3.2, -6.2, 106.8⟩ ∧
    qTrunc 1008 = 1008 ∧ qTrunc 70 = 70 := by
  refine ⟨?_, rfl, ?_, ?_⟩
  · intro city desc icon temp press hum lat lon wind wrest
    rcases wind with _ | w <;> rfl
  · simp [qTrunc, Rat.num_ofNat, Rat.den_ofNat]
  · simp [qTrunc, Rat.num_ofNat, Rat.den_ofNat]

/-! ### Claim C7: lazy client construction in `WeatherService` -/

/-- C7 (amended): `WeatherService` construction is total and starts with
no client.  With a falsy key (`None` or `""`) a network-requiring call
fails with an `APIRequestException` configuration error and no client is
constructed (so the next call retries).  With a non-empty, non-blank key
the client is constructed on first use and every later call returns the
same state unchanged.  With a non-empty but whitespace-only key, however,
the first use fails with an uncategorised `ValueError` from
`WeatherAPIClient.__init__`, not an `APIRequestException`, and the client
stays unconstructed. -/
theorem claim_C7 :
    (∀ k, (WeatherService.make k).api_client = none) ∧
    (∀ s : WeatherService, s.api_client = none → keyFalsy s.api_key = true →
      ∃ m, ensure_client s = .error (.weatherError .apiRequest m)) ∧
    (∀ (s : WeatherService) (k : String), s.api_client = none →
      s.api_key = some k → k ≠ "" → pyStrip k ≠ "" →
      ensure_client s = .ok ⟨s.api_key, some ⟨k, 10⟩⟩ ∧
      ensure_client ⟨s.api_key, some ⟨k, 10⟩⟩ = .ok ⟨s.api_key, some ⟨k, 10⟩⟩) ∧
    (∀ (s : WeatherService) (c : WeatherAPIClient), s.api_client = some c →
      ensure_client s = .ok s) ∧
    (∀ (s : WeatherService) (k : String), s.api_client = none →
      s.api_key = some k → k ≠ "" → pyStrip k = "" →
      ensure_client s =
        .error (.valueError "API key tidak boleh kosong bagi WeatherAPIClient")) := by
  refine ⟨fun k => rfl, ?_, ?_, ?_, ?_⟩
  · rintro ⟨key, client⟩ hcl hf
    cases client with
    | some c => simp at hcl
    | none =>
      simp only [ensure_client, hf]
      exact ⟨_, rfl⟩
  · rintro ⟨key, client⟩ k hcl hk hne hnb
    cases client with
    | some c => simp at hcl
    | none =>
      subst hk
      have hf : keyFalsy (some k) = false := by simp [keyFalsy, hne]
      constructor
      · simp only [ensure_client, hf, WeatherAPIClient.make, Option.getD]
        rw [if_neg (by tauto), if_neg (by tauto)]
      · rfl
  · rintro ⟨key, client⟩ c hcl
    subst hcl
    rfl
  · rintro ⟨key, client⟩ k hcl hk hne hb
    cases client with
    | some c => simp at hcl
    | none =>
      subst hk
      have hf : keyFalsy (some k) = false := by simp [keyFalsy, hne]
      simp only [ensure_client, hf, WeatherAPIClient.make, Option.getD]
      rw [if_neg (by simp [hne]), if_pos (Or.inr hb)]

/-- C7 (counterexample): a service holding the whitespace-only key
`" "` — a key that is present — fails its first network-requiring call
with a bare `ValueError`, not an `APIRequestException`, and without
constructing the client. -/
theorem claim_C7_counterexample :
    ensure_client (WeatherService.make (some " ")) =
      .error (.valueError "API key tidak boleh kosong bagi WeatherAPIClient") :=
  rfl

/-- C7 witness: a usable key constructs the client on first use, and the
constructed state is a fixed point of `ensure_client`. -/
theorem claim_C7_witness :
    ensure_client (WeatherService.make (some "apikey")) =
      .ok ⟨some "apikey", some ⟨"apikey", 10⟩⟩ ∧
    ensure_client ⟨some "apikey", some ⟨"apikey", 10⟩⟩ =
      .ok ⟨some "apikey", some ⟨"apikey", 10⟩⟩ :=
  claim_C7.2.2.1 (WeatherService.make (some "apikey")) "apikey" rfl rfl
    (by decide) (by decide)

/-! ### Claim C9: HTTP 404 maps to `CityNotFoundException` -/

/-- Mocked 404 response whose JSON body carries the provider message. -/
def mock404 : HttpResponse :=
  ⟨404, "city not found body",
   some (Json.obj [("cod", Json.str "404"),
     ("message", Json.str "city not found")])⟩

/-- C9: a 404 response whose body holds a `"message"` string `m` makes
both fetches fail with a `CityNotFoundException` carrying `m`; the
mocked `message: "city not found"` body yields an error whose message
extends `"city not found"`. -/
theorem claim_C9 :
    (∀ (resp : HttpResponse) (fs : List (String × Json)) (m : String),
      resp.status_code = 404 → resp.body = some (Json.obj fs) →
      fs.lookup "message" = some (Json.str m) →
      fetch_current_weather resp =
        .error (.weatherError .cityNotFound (m ++ " (status 404)")) ∧
      fetch_forecast resp =
        .error (.weatherError .cityNotFound (m ++ " (status 404)"))) ∧
    fetch_current_weather mock404 =
      .error (.weatherError .cityNotFound "city not found (status 404)") ∧
    fetch_forecast mock404 =
      .error (.weatherError .cityNotFound "city not found (status 404)") ∧
    "city not found" ++ " (status 404)" = "city not found (status 404)" := by
  refine ⟨?_, rfl, rfl, rfl⟩
  intro resp fs m h404 hbody hmsg
  constructor <;>
    simp [fetch_current_weather, fetch_forecast, do_get, msg404, h404,
      hbody, hmsg, pyFStr]

/-- C9 witness: the theorem applied to the mocked 404 response. -/
theorem claim_C9_witness :
    fetch_current_weather mock404 =
      .error (.weatherError .cityNotFound
        ("city not found" ++ " (status 404)")) ∧
    fetch_forecast mock404 =
      .error (.weatherError .cityNotFound
        ("city not found" ++ " (status 404)")) :=
  claim_C9.1 mock404
    [("cod", Json.str "404"), ("message", Json.str "city not found")]
    "city not found" rfl rfl rfl

/-! ### Claim C10: empty forecast lists -/

/-- C10: a payload whose entry list is absent or empty builds an empty
table, so `get_hourly_forecast` returns an empty table; but
`aggregate_daily_forecast` on the empty table raises a
`WeatherException`, so `get_daily_forecast` fails instead of returning
an empty daily table. -/
theorem claim_C10 (fs : List (String × Json)) (tzj : Json)
    (s s' : WeatherService) (resp : HttpResponse) (n m : ℤ)
    (htz : forecastTzJson (Json.obj fs) = .ok tzj)
    (hlist : fs.lookup "list" = none ∨ fs.lookup "list" = some (Json.arr []))
    (hens : ensure_client s = .ok s')
    (h200 : resp.status_code = 200)
    (hbody : resp.body = some (Json.obj fs)) :
    build_forecast_dataframe (Json.obj fs) = .ok [] ∧
    get_hourly_forecast s resp n = .ok [] ∧
    (∃ msg, aggregate_daily_forecast [] m = .error (.weatherError .base msg)) ∧
    (∃ msg, get_daily_forecast s resp m =
      .error (.weatherError .base msg)) := by
  have hent : forecastEntries (Json.obj fs) = .ok [] := by
    have hp : pyGet (Json.obj fs) "list" (Json.arr []) =
        .ok ((fs.lookup "list").getD (Json.arr [])) := rfl
    unfold forecastEntries
    rcases hlist with h | h <;> rw [hp, h] <;> rfl
  have hbuild : build_forecast_dataframe (Json.obj fs) = .ok [] := by
    rw [build_forecast_dataframe, wrapCaught_ok_iff]
    unfold build_body
    rw [htz]
    simp only [except_pure_bind]
    rw [hent]
    rfl
  have hdo : do_get resp = .ok (Json.obj fs) := by
    simp [do_get, h200, hbody]
  refine ⟨hbuild, ?_, ⟨_, rfl⟩, ?_⟩
  · unfold get_hourly_forecast
    rw [hens]
    simp only [except_pure_bind]
    unfold fetch_forecast
    rw [hdo]
    simp only [except_pure_bind]
    rw [hbuild]
    simp only [except_pure_bind, List.take_nil]
  · refine ⟨"Error aggregating daily forecast: \x27date\x27", ?_⟩
    unfold get_daily_forecast
    rw [hens]
    simp only [except_pure_bind]
    unfold fetch_forecast
    rw [hdo]
    simp only [except_pure_bind]
    rw [hbuild]
    rfl

/-- Concrete 200 response whose forecast payload has an empty entry
list. -/
def c10resp : HttpResponse :=
  ⟨200, "", some (Json.obj [("list", Json.arr [])])⟩

/-- C10 witness: the theorem applied to the concrete empty-list payload
and a service with a usable key. -/
theorem claim_C10_witness :
    build_forecast_dataframe (Json.obj [("list", Json.arr [])]) = .ok [] ∧
    get_hourly_forecast (WeatherService.make (some "key0")) c10resp 8 = .ok [] ∧
    (∃ msg, aggregate_daily_forecast [] 3 =
      .error (.weatherError .base msg)) ∧
    (∃ msg, get_daily_forecast (WeatherService.make (some "key0")) c10resp 3 =
      .error (.weatherError .base msg)) :=
  claim_C10 [("list", Json.arr [])] (Json.num 0)
    (WeatherService.make (some "key0")) ⟨some "key0", some ⟨"key0", 10⟩⟩
    c10resp 8 3 rfl (Or.inr rfl) rfl rfl rfl

/-! ### Claim C8: min ≤ mean ≤ max per date group -/

/-- C8: every daily summary row satisfies
`min_temp ≤ mean_temp ≤ max_temp`. -/
theorem claim_C8 (df : List ForecastRow) (n : ℤ) (out : List DailyRow)
    (row : DailyRow) (hok : aggregate_daily_forecast df n = .ok out)
    (hrow : row ∈ out) :
    row.min_temp ≤ row.mean_temp ∧ row.mean_temp ≤ row.max_temp := by
  rcases mem_aggregate hok hrow with ⟨d, hd, rfl⟩
  have hg : dateGroup df d ≠ [] := dateGroup_ne_nil hd
  have hmap : (dateGroup df d).map (fun r => r.temp) ≠ [] := by
    simpa [List.map_eq_nil_iff] using hg
  exact ⟨minQ_le_meanQ hmap, meanQ_le_maxQ hmap⟩

/-- Concrete input for the C8 witness: one date, temperatures 25 and 35. -/
def c8wdf : List ForecastRow :=
  [⟨0, 0, 0, 25, 50, 2, "Rain", "10d"⟩,
   ⟨10800, 10800, 0, 35, 60, 4, "Rain", "10d"⟩]

/-- C8 witness: the theorem applied to a concrete aggregation (the group
holds temperatures 25 and 35, so min 25 ≤ mean 30 ≤ max 35). -/
theorem claim_C8_witness :
    (mkDaily 0 (dateGroup c8wdf 0)).min_temp ≤
        (mkDaily 0 (dateGroup c8wdf 0)).mean_temp ∧
      (mkDaily 0 (dateGroup c8wdf 0)).mean_temp ≤
        (mkDaily 0 (dateGroup c8wdf 0)).max_temp :=
  claim_C8 c8wdf 3 [mkDaily 0 (dateGroup c8wdf 0)]
    (mkDaily 0 (dateGroup c8wdf 0)) (by rfl) (by simp)

end WeatherBackend
